import Mathlib

/-!
Verification development for the database bootstrap/migration/seed scripts
of the `setup` repository: `create-database.ts`, `drop-database.ts`,
`migrate.ts` and the seed script, shallowly embedded as pure Lean
functions producing an event trace, an "uncaught error" outcome and a
store state.
-/

namespace Setup

/-! ## JavaScript `Number(...)` coercion

The permission gates read `Number(process.env.FLAG) !== 1`.  We model the
JS `Number` coercion of `process.env.FLAG` (a `string | undefined`) on the
domain relevant to the gates: `undefined` is NaN (`none`); a string is
trimmed of whitespace; the empty trimmed string is `0`; an optionally
signed decimal literal `digits [. digits]` evaluates as a rational;
anything else (e.g. `"true"`) is NaN.  (Exponent, hex and `Infinity`
forms of JS numeric strings are outside the flag domain considered here.) -/

def isJsSpace (c : Char) : Bool :=
  c = ' ' || c = '\t' || c = '\n' || c = '\r' || c = '\x0b' || c = '\x0c'

def isDigitChar (c : Char) : Bool :=
  '0' ≤ c && c ≤ '9'

/-- Value of a digit run, `none` when a non-digit occurs.  The empty run
yields `0` so that `"1."` and `".5"` parse as in JS; degenerate cases are
rejected by the caller. -/
def digitsValAux : Nat → List Char → Option Nat
  | acc, [] => some acc
  | acc, c :: cs =>
      if isDigitChar c then digitsValAux (acc * 10 + (c.toNat - 48)) cs else none

/-- Split a character list at the first dot. -/
def splitDot : List Char → List Char × Option (List Char)
  | [] => ([], none)
  | '.' :: t => ([], some t)
  | c :: t =>
      let p := splitDot t
      (c :: p.1, p.2)

def pow10 : Nat → Nat
  | 0 => 1
  | n + 1 => 10 * pow10 n

/-- Numeric value of an unsigned JS decimal literal body `digits [. digits]`:
with a fractional part of length k the value is
(intPart * 10 ^ k + fracPart) / 10 ^ k, built by one `mkRat`. -/
def jsNumberCore (body : List Char) : Option ℚ :=
  let p := splitDot body
  match p.2 with
  | none =>
      if p.1 = [] then none
      else (digitsValAux 0 p.1).map (fun n => mkRat n 1)
  | some fp =>
      if fp.contains '.' then none
      else if p.1 = [] ∧ fp = [] then none
      else
        match digitsValAux 0 p.1, digitsValAux 0 fp with
        | some i, some f => some (mkRat (i * pow10 fp.length + f) (pow10 fp.length))
        | _, _ => none

/-- `Number(v)` for `v : string | undefined`, as an `Option ℚ` with `none`
playing NaN. -/
def jsNumber : Option String → Option ℚ
  | none => none
  | some str =>
      let cs := ((str.toList.dropWhile isJsSpace).reverse.dropWhile isJsSpace).reverse
      match cs with
      | [] => some 0
      | '+' :: t => jsNumberCore t
      | '-' :: t => (jsNumberCore t).map Neg.neg
      | _ => jsNumberCore cs

/-- The gate condition of all three gated scripts:
`Number(flag) !== 1` aborts, so the operation is permitted exactly when
the coerced value is `1`. -/
def gatePermits (v : Option String) : Bool :=
  decide (jsNumber v = some 1)

/-! ## Event traces

Each script run is modelled as the list of externally visible actions it
performs, in order. -/

inductive Event where
  | connect
  | createDbStmt
  | dropDbStmt
  | listTablesStmt
  | truncateStmt (query : String)
  | hashCompute (plain : String)
  | insertUserStmt (username email password : String)
  | insertRoleStmt (name : String)
  | insertUserRoleStmt (userId roleId : Nat)
  | migrationExec (version : Nat)
  | logNotice
  | logError
  | connEnd
  deriving DecidableEq, Repr

/-- Reply of the store to a single statement: success, or an error with a
Postgres error code. -/
inductive StoreReply where
  | ok
  | err (code : String)
  deriving DecidableEq, Repr

/-! ## create-database.ts / drop-database.ts -/

/-- `createDB`: issue `CREATE DATABASE`; error code `42P04`
("duplicate database") is downgraded to a logged notice, any other error
is rethrown.  Returns the trace and the error propagated to the caller. -/
def createDB (reply : StoreReply) : List Event × Option String :=
  match reply with
  | .ok => ([.createDbStmt, .logNotice], none)
  | .err c =>
      if c = "42P04" then ([.createDbStmt, .logNotice], none)
      else ([.createDbStmt], some c)

/-- `dropDB`: issue `DROP DATABASE`; error code `3D000`
("database does not exist") is downgraded to a logged notice. -/
def dropDB (reply : StoreReply) : List Event × Option String :=
  match reply with
  | .ok => ([.dropDbStmt, .logNotice], none)
  | .err c =>
      if c = "3D000" then ([.dropDbStmt, .logNotice], none)
      else ([.dropDbStmt], some c)

/-- `createDatabase`: connect, `try createDB catch log error finally end`.
The catch swallows every error from `createDB`, so the second component
(the error escaping to the process boundary) is always `none`. -/
def createDatabase (reply : StoreReply) : List Event × Option String :=
  let r := createDB reply
  match r.2 with
  | none => (Event.connect :: r.1 ++ [Event.logNotice, Event.connEnd], none)
  | some _ => (Event.connect :: r.1 ++ [Event.logError, Event.connEnd], none)

/-- `dropDatabase`: connect, `try dropDB catch log error finally end`. -/
def dropDatabase (reply : StoreReply) : List Event × Option String :=
  let r := dropDB reply
  match r.2 with
  | none => (Event.connect :: r.1 ++ [Event.logNotice, Event.connEnd], none)
  | some _ => (Event.connect :: r.1 ++ [Event.logError, Event.connEnd], none)

def createPermissionError : String := "CAN_CREATE_DATABASE gate refused"
def dropPermissionError : String := "CAN_DROP_DATABASE gate refused"
def seedPermissionError : String := "CAN_SEED_DATABASE gate refused"

/-- The whole create-database.ts script: the module-level gate check runs
before `createDatabase()` is invoked; a gate failure throws before any
connection is opened (empty trace). -/
def createDatabaseScript (gate : Option String) (reply : StoreReply) :
    List Event × Option String :=
  if gatePermits gate then createDatabase reply
  else ([], some createPermissionError)

/-- The whole drop-database.ts script. -/
def dropDatabaseScript (gate : Option String) (reply : StoreReply) :
    List Event × Option String :=
  if gatePermits gate then dropDatabase reply
  else ([], some dropPermissionError)

/-! ## Store-state semantics of CREATE / DROP DATABASE

Modelled from the spec: the Postgres server itself is external; it
answers `CREATE DATABASE` with code `42P04` when the database already
exists and `DROP DATABASE` with code `3D000` when it does not. -/

def storeCreateReply (dbExists : Bool) : StoreReply × Bool :=
  if dbExists then (.err "42P04", true) else (.ok, true)

def storeDropReply (dbExists : Bool) : StoreReply × Bool :=
  if dbExists then (.ok, false) else (.err "3D000", false)

/-- Run the create script against a store whose state is just whether the
database exists; returns the script result and the new store state. -/
def runCreate (gate : Option String) (dbExists : Bool) :
    (List Event × Option String) × Bool :=
  if gatePermits gate then
    let p := storeCreateReply dbExists
    (createDatabase p.1, p.2)
  else (([], some createPermissionError), dbExists)

/-- Run the drop script against the same store model. -/
def runDrop (gate : Option String) (dbExists : Bool) :
    (List Event × Option String) × Bool :=
  if gatePermits gate then
    let p := storeDropReply dbExists
    (dropDatabase p.1, p.2)
  else (([], some dropPermissionError), dbExists)

/-! ## The seed script -/

structure UserRow where
  id : Nat
  username : String
  email : String
  password : String
  deriving DecidableEq, Repr

structure RoleRow where
  id : Nat
  name : String
  deriving DecidableEq, Repr

/-- The tables the seed script writes: `users`, `roles` and `user_roles`
(the latter as `(user_id, role_id)` pairs). -/
structure SeedDB where
  users : List UserRow
  roles : List RoleRow
  userRoles : List (Nat × Nat)
  deriving DecidableEq, Repr

def emptySeedDB : SeedDB := ⟨[], [], []⟩

/-- The fixed demo roster of the seed script, in source order. -/
def usersRoster : List (String × String) :=
  [("basic", "basic@example.com"),
   ("moderator", "moderator@example.com"),
   ("admin", "admin@example.com")]

def scryptPlaintext : String := "Password123$"

/-- The batched truncation statement built by `truncateTables`. -/
def truncateQueries (tableNames : List String) : String :=
  String.intercalate "; "
    (tableNames.map (fun t => "TRUNCATE TABLE \"" ++ t ++ "\" RESTART IDENTITY CASCADE"))

/-- `truncateTables`: list the base tables of the `public` schema, and if
any exist, send one batched `TRUNCATE ... RESTART IDENTITY CASCADE`
statement covering all of them.  `tables` is the store's answer to the
`information_schema.tables` query; `reply` the store's answer to the
truncation statement.  Returns the new state, the trace and the error
thrown out of `truncateTables`. -/
def truncateTables (tables : List String) (reply : StoreReply) (db : SeedDB) :
    SeedDB × List Event × Option String :=
  if tables.isEmpty then (db, [Event.listTablesStmt], none)
  else
    match reply with
    | .ok => (emptySeedDB,
        [Event.listTablesStmt, Event.truncateStmt (truncateQueries tables)], none)
    | .err c => (db,
        [Event.listTablesStmt, Event.truncateStmt (truncateQueries tables)], some c)

/-- The loop body of `seedUsers`: for each roster entry, insert the user
(with the shared hash), insert a role named after the user, push the new
role id onto `rolesAccumulator`, and insert one `user_roles` row per
accumulated role id.  `SERIAL` ids continue from the current row counts
(identities were restarted by the preceding truncation). -/
def seedUsersLoop (hash : String) :
    List (String × String) → List Nat → SeedDB → List Event → SeedDB × List Event
  | [], _, db, tr => (db, tr)
  | (username, email) :: rest, acc, db, tr =>
      let userId := db.users.length + 1
      let db1 : SeedDB := { db with users := db.users ++ [⟨userId, username, email, hash⟩] }
      let roleId := db1.roles.length + 1
      let db2 : SeedDB := { db1 with roles := db1.roles ++ [⟨roleId, username⟩] }
      let acc1 := acc ++ [roleId]
      let db3 : SeedDB := { db2 with userRoles := db2.userRoles ++ acc1.map (fun r => (userId, r)) }
      let tr1 := tr ++ [Event.insertUserStmt username email hash, Event.insertRoleStmt username]
                    ++ acc1.map (fun r => Event.insertUserRoleStmt userId r)
      seedUsersLoop hash rest acc1 db3 tr1

/-- `seedUsers`: hash the fixed plaintext once, then run the roster loop
with an empty `rolesAccumulator`. -/
def seedUsers (hashFn : String → String) (roster : List (String × String)) (db : SeedDB) :
    SeedDB × List Event :=
  let hash := hashFn scryptPlaintext
  seedUsersLoop hash roster [] db [Event.hashCompute scryptPlaintext]

/-- `seed`: connect, `try (truncateTables; seedUsers) catch log error
finally end`.  A truncation error skips `seedUsers`; the catch swallows
the error, so nothing escapes to the process boundary. -/
def seed (tables : List String) (truncReply : StoreReply)
    (hashFn : String → String) (db : SeedDB) :
    SeedDB × List Event × Option String :=
  let t := truncateTables tables truncReply db
  match t.2.2 with
  | some _ => (t.1, Event.connect :: t.2.1 ++ [Event.logError, Event.connEnd], none)
  | none =>
      let s := seedUsers hashFn usersRoster t.1
      (s.1, Event.connect :: t.2.1 ++ s.2 ++ [Event.connEnd], none)

/-- The whole seed script: the module-level `CAN_SEED_DATABASE` gate
throws before `seed()` runs. -/
def seedScript (gate : Option String) (tables : List String) (truncReply : StoreReply)
    (hashFn : String → String) (db : SeedDB) :
    SeedDB × List Event × Option String :=
  if gatePermits gate then seed tables truncReply hashFn db
  else (db, [], some seedPermissionError)

/-- Role ids associated to the user with the given username. -/
def rolesOf (db : SeedDB) (username : String) : List Nat :=
  match (db.users.find? (fun u => u.username = username)).map (fun u => u.id) with
  | none => []
  | some uid => (db.userRoles.filter (fun p => p.1 = uid)).map (fun p => p.2)

def isInsertEvent : Event → Bool
  | .insertUserStmt _ _ _ => true
  | .insertRoleStmt _ => true
  | .insertUserRoleStmt _ _ => true
  | _ => false

def isTruncateEvent : Event → Bool
  | .truncateStmt _ => true
  | _ => false

/-! ## The migration runner

`migrate.ts` opens a connection, then (inside the `try`) checks that the
migration directory exists, and hands the per-file work to the external
`postgrator` engine. -/

structure Migration where
  version : Nat
  body : String
  deriving DecidableEq, Repr

/-- Modelled from the spec: the migration engine (the external
`postgrator` library, not part of this repository) selects every file
whose version exceeds the ledger's current version, executes their bodies
in ascending version order, and records each executed version in the
`schemaversion` ledger; with no pending file it executes nothing and
leaves the ledger unchanged.  `files` is assumed listed in filename
(hence version) order.  Returns the executed migrations in order and the
final ledger version. -/
def migrateRun (files : List Migration) (current : Nat) : List Migration × Nat :=
  let pending := files.filter (fun m => current < m.version)
  (pending, pending.foldl (fun _ m => m.version) current)

/-- `doMigration`: connect; inside the `try`, fail if the migration
directory is absent, otherwise run the engine; `catch` logs, `finally`
releases the connection.  Returns the trace, the error escaping to the
process boundary, and the final ledger version. -/
def doMigration (dirExists : Bool) (files : List Migration) (current : Nat) :
    (List Event × Option String) × Nat :=
  if dirExists then
    let r := migrateRun files current
    ((Event.connect :: r.1.map (fun m => Event.migrationExec m.version) ++ [Event.connEnd],
      none), r.2)
  else
    (([Event.connect, Event.logError, Event.connEnd], none), current)

def isHashEvent : Event → Bool
  | .hashCompute _ => true
  | _ => false

/-! ## Theorems -/

theorem connEnd_last (l : List Event) :
    (l ++ [Event.connEnd]).getLast? = some Event.connEnd := by
  simp

theorem createDatabase_trace (r : StoreReply) :
    (createDatabase r).1.head? = some Event.connect ∧
    (createDatabase r).1.getLast? = some Event.connEnd := by
  cases r with
  | ok => exact ⟨rfl, rfl⟩
  | err c =>
      rcases eq_or_ne c "42P04" with hc | hc
      · subst hc; exact ⟨rfl, rfl⟩
      · have h1 : createDatabase (StoreReply.err c)
            = ([Event.connect, Event.createDbStmt, Event.logError, Event.connEnd], none) := by
          simp [createDatabase, createDB, hc]
        rw [h1]; exact ⟨rfl, rfl⟩

theorem dropDatabase_trace (r : StoreReply) :
    (dropDatabase r).1.head? = some Event.connect ∧
    (dropDatabase r).1.getLast? = some Event.connEnd := by
  cases r with
  | ok => exact ⟨rfl, rfl⟩
  | err c =>
      rcases eq_or_ne c "3D000" with hc | hc
      · subst hc; exact ⟨rfl, rfl⟩
      · have h1 : dropDatabase (StoreReply.err c)
            = ([Event.connect, Event.dropDbStmt, Event.logError, Event.connEnd], none) := by
          simp [dropDatabase, dropDB, hc]
        rw [h1]; exact ⟨rfl, rfl⟩

theorem seed_trace (tables : List String) (truncReply : StoreReply)
    (hashFn : String → String) (db : SeedDB) :
    (seed tables truncReply hashFn db).2.1.head? = some Event.connect ∧
    (seed tables truncReply hashFn db).2.1.getLast? = some Event.connEnd := by
  cases tables with
  | nil => exact ⟨rfl, rfl⟩
  | cons t ts =>
      cases truncReply with
      | ok => exact ⟨rfl, rfl⟩
      | err c => exact ⟨rfl, rfl⟩

theorem doMigration_trace (dirExists : Bool) (files : List Migration) (current : Nat) :
    (doMigration dirExists files current).1.1.head? = some Event.connect ∧
    (doMigration dirExists files current).1.1.getLast? = some Event.connEnd := by
  cases dirExists with
  | false => exact ⟨rfl, rfl⟩
  | true =>
      refine ⟨rfl, ?_⟩
      exact connEnd_last (Event.connect ::
        (migrateRun files current).1.map (fun m => Event.migrationExec m.version))

/-- Claim C1: for every gating flag value whose JS numeric coercion is not
exactly 1 (including missing, "0", "true", and the empty string), the
corresponding gated script (create, drop, seed) throws a permission error
with an empty trace — no connection opened, zero store mutations. -/
theorem claim_C1 :
    (jsNumber none ≠ some 1 ∧ jsNumber (some "0") ≠ some 1 ∧
     jsNumber (some "true") ≠ some 1 ∧ jsNumber (some "") ≠ some 1) ∧
    ∀ (v : Option String) (reply : StoreReply) (tables : List String)
      (truncReply : StoreReply) (hashFn : String → String) (db : SeedDB),
      jsNumber v ≠ some 1 →
      createDatabaseScript v reply = ([], some createPermissionError) ∧
      dropDatabaseScript v reply = ([], some dropPermissionError) ∧
      seedScript v tables truncReply hashFn db = (db, [], some seedPermissionError) := by
  constructor
  · exact ⟨by decide, by decide, by decide, by decide⟩
  · intro v reply tables truncReply hashFn db h
    have hg : gatePermits v = false := by
      simp only [gatePermits]
      exact decide_eq_false h
    simp [createDatabaseScript, dropDatabaseScript, seedScript, hg]

/-- Witness for claim C1 at the concrete flag value "true". -/
theorem claim_C1_witness :
    jsNumber (some "true") ≠ some 1 ∧
    createDatabaseScript (some "true") StoreReply.ok = ([], some createPermissionError) ∧
    dropDatabaseScript (some "true") StoreReply.ok = ([], some dropPermissionError) ∧
    seedScript (some "true") ["users"] StoreReply.ok id emptySeedDB
      = (emptySeedDB, [], some seedPermissionError) :=
  ⟨by decide,
   claim_C1.2 (some "true") StoreReply.ok ["users"] StoreReply.ok id emptySeedDB (by decide)⟩

/-- Claim C2: error code 42P04 on create and 3D000 on drop are downgraded
to success-with-notice, and repeated invocation of either gated operation
converges to the same end state (present for create, absent for drop)
without erroring. -/
theorem claim_C2 :
    ∀ b : Bool,
      createDB (StoreReply.err "42P04") = ([Event.createDbStmt, Event.logNotice], none) ∧
      dropDB (StoreReply.err "3D000") = ([Event.dropDbStmt, Event.logNotice], none) ∧
      (runCreate (some "1") b).1.2 = none ∧
      (runCreate (some "1") b).2 = true ∧
      (runDrop (some "1") b).1.2 = none ∧
      (runDrop (some "1") b).2 = false ∧
      (runCreate (some "1") (runCreate (some "1") b).2).1.2 = none ∧
      (runCreate (some "1") (runCreate (some "1") b).2).2 = (runCreate (some "1") b).2 ∧
      (runDrop (some "1") (runDrop (some "1") b).2).1.2 = none ∧
      (runDrop (some "1") (runDrop (some "1") b).2).2 = (runDrop (some "1") b).2 := by
  intro b
  cases b <;> decide

/-- Claim C3: seeding the fixed roster creates one role per user and
associates each user with every role created so far — basic holds [1],
moderator [1, 2], admin [1, 2, 3] (the union of all created roles) — and
reversing the roster leaves the user named admin with a single role. -/
theorem claim_C3 :
    ∀ hashFn : String → String,
      (seedUsers hashFn usersRoster emptySeedDB).1.roles
        = [⟨1, "basic"⟩, ⟨2, "moderator"⟩, ⟨3, "admin"⟩] ∧
      rolesOf (seedUsers hashFn usersRoster emptySeedDB).1 "basic" = [1] ∧
      rolesOf (seedUsers hashFn usersRoster emptySeedDB).1 "moderator" = [1, 2] ∧
      rolesOf (seedUsers hashFn usersRoster emptySeedDB).1 "admin" = [1, 2, 3] ∧
      rolesOf (seedUsers hashFn usersRoster.reverse emptySeedDB).1 "admin" = [1] ∧
      rolesOf (seedUsers hashFn usersRoster.reverse emptySeedDB).1 "admin"
        ≠ rolesOf (seedUsers hashFn usersRoster emptySeedDB).1 "admin" := by
  intro hashFn
  refine ⟨rfl, rfl, rfl, rfl, rfl, ?_⟩
  have h1 : rolesOf (seedUsers hashFn usersRoster.reverse emptySeedDB).1 "admin" = [1] := rfl
  have h2 : rolesOf (seedUsers hashFn usersRoster emptySeedDB).1 "admin" = [1, 2, 3] := rfl
  rw [h1, h2]; decide

/-- Claim C4: in the seed script, the batched truncation statement
precedes every insert; if the truncation errors, no user, role or
user-role insert is issued and the state is unchanged. -/
theorem claim_C4 :
    ∀ (tables : List String) (hashFn : String → String) (db : SeedDB) (c : String),
      tables ≠ [] →
      ((seed tables (StoreReply.err c) hashFn db).2.1.filter isInsertEvent = [] ∧
       (seed tables (StoreReply.err c) hashFn db).1 = db) ∧
      ∃ tr : List Event,
        (seed tables StoreReply.ok hashFn db).2.1 =
          [Event.connect, Event.listTablesStmt, Event.truncateStmt (truncateQueries tables)]
            ++ tr ++ [Event.connEnd] ∧
        tr.filter isTruncateEvent = [] := by
  intro tables hashFn db c h
  cases tables with
  | nil => exact absurd rfl h
  | cons t ts =>
      refine ⟨⟨rfl, rfl⟩, (seedUsers hashFn usersRoster emptySeedDB).2, rfl, rfl⟩

/-- Witness for claim C4 at concrete tables, hash function and state. -/
theorem claim_C4_witness :
    (["users", "tasks"] : List String) ≠ [] ∧
    (((seed ["users", "tasks"] (StoreReply.err "42601") id emptySeedDB).2.1.filter
        isInsertEvent = [] ∧
      (seed ["users", "tasks"] (StoreReply.err "42601") id emptySeedDB).1 = emptySeedDB) ∧
     ∃ tr : List Event,
       (seed ["users", "tasks"] StoreReply.ok id emptySeedDB).2.1 =
         [Event.connect, Event.listTablesStmt,
          Event.truncateStmt (truncateQueries ["users", "tasks"])]
           ++ tr ++ [Event.connEnd] ∧
       tr.filter isTruncateEvent = []) :=
  ⟨by decide, claim_C4 ["users", "tasks"] id emptySeedDB "42601" (by decide)⟩

/-- Claim C5 (amended): a store error other than the expected-benign one
is rethrown by the inner operation to the enclosing script function,
which catches and logs it and completes normally — nothing escapes to the
process boundary — and the connection is still released. -/
theorem claim_C5 :
    ∀ (c : String) (tables : List String) (hashFn : String → String) (db : SeedDB),
      (c ≠ "42P04" →
        (createDB (StoreReply.err c)).2 = some c ∧
        createDatabase (StoreReply.err c)
          = ([Event.connect, Event.createDbStmt, Event.logError, Event.connEnd], none)) ∧
      (c ≠ "3D000" →
        (dropDB (StoreReply.err c)).2 = some c ∧
        dropDatabase (StoreReply.err c)
          = ([Event.connect, Event.dropDbStmt, Event.logError, Event.connEnd], none)) ∧
      (tables ≠ [] →
        (seed tables (StoreReply.err c) hashFn db).2.2 = none ∧
        (seed tables (StoreReply.err c) hashFn db).2.1
          = [Event.connect, Event.listTablesStmt,
             Event.truncateStmt (truncateQueries tables), Event.logError, Event.connEnd]) := by
  intro c tables hashFn db
  refine ⟨fun h => ?_, fun h => ?_, fun h => ?_⟩
  · constructor
    · simp [createDB, h]
    · simp [createDatabase, createDB, h]
  · constructor
    · simp [dropDB, h]
    · simp [dropDatabase, dropDB, h]
  · cases tables with
    | nil => exact absurd rfl h
    | cons t ts => exact ⟨rfl, rfl⟩

/-- Counterexample to claim C5 as stated: on the unexpected error code
42601 the create script completes normally — no error escapes to the
process boundary (second component none), so the script does not
terminate with an unhandled throw. -/
theorem claim_C5_cex :
    (createDatabase (StoreReply.err "42601")).2 = none ∧
    (createDatabase (StoreReply.err "42601")).1.getLast? = some Event.connEnd := by
  decide

/-- Witness for the amended claim C5 at the concrete error code 42601. -/
theorem claim_C5_witness :
    (createDB (StoreReply.err "42601")).2 = some "42601" ∧
    (dropDB (StoreReply.err "42601")).2 = some "42601" ∧
    (seed ["users"] (StoreReply.err "42601") id emptySeedDB).2.1
      = [Event.connect, Event.listTablesStmt,
         Event.truncateStmt (truncateQueries ["users"]), Event.logError, Event.connEnd] :=
  ⟨((claim_C5 "42601" ["users"] id emptySeedDB).1 (by decide)).1,
   ((claim_C5 "42601" ["users"] id emptySeedDB).2.1 (by decide)).1,
   ((claim_C5 "42601" ["users"] id emptySeedDB).2.2 (by decide)).2⟩

/-- Claim C6: with files versioned 1, 2, 3 and ledger at 1, the runner
executes exactly the bodies of 2 then 3, in that order, and updates the
ledger to 3; a rerun at ledger 3 executes nothing and leaves it at 3. -/
theorem claim_C6 :
    ∀ b1 b2 b3 : String,
      (migrateRun [⟨1, b1⟩, ⟨2, b2⟩, ⟨3, b3⟩] 1).1.map (fun m => m.body) = [b2, b3] ∧
      (migrateRun [⟨1, b1⟩, ⟨2, b2⟩, ⟨3, b3⟩] 1).2 = 3 ∧
      (migrateRun [⟨1, b1⟩, ⟨2, b2⟩, ⟨3, b3⟩] 3).1 = [] ∧
      (migrateRun [⟨1, b1⟩, ⟨2, b2⟩, ⟨3, b3⟩] 3).2 = 3 ∧
      (doMigration true [⟨1, b1⟩, ⟨2, b2⟩, ⟨3, b3⟩] 1).1.1
        = [Event.connect, Event.migrationExec 2, Event.migrationExec 3, Event.connEnd] ∧
      (doMigration true [⟨1, b1⟩, ⟨2, b2⟩, ⟨3, b3⟩] 1).2 = 3 ∧
      (doMigration true [⟨1, b1⟩, ⟨2, b2⟩, ⟨3, b3⟩] 3).1.1 = [Event.connect, Event.connEnd] ∧
      (doMigration true [⟨1, b1⟩, ⟨2, b2⟩, ⟨3, b3⟩] 3).2 = 3 := by
  intro b1 b2 b3
  exact ⟨rfl, rfl, rfl, rfl, rfl, rfl, rfl, rfl⟩

/-- Claim C7 (amended): with the migration directory absent, the runner
opens its connection first, then raises the error inside the try block
before any migration statement executes; the error is logged (not
rethrown), the ledger is unchanged and the connection is released. -/
theorem claim_C7 :
    ∀ (files : List Migration) (current : Nat),
      doMigration false files current
        = (([Event.connect, Event.logError, Event.connEnd], none), current) := by
  intro files current
  rfl

/-- Counterexample to claim C7 as stated: with the directory absent the
trace begins with the connect event, so a connection is opened before the
error is raised. -/
theorem claim_C7_cex :
    (doMigration false [] 0).1.1 = [Event.connect, Event.logError, Event.connEnd] ∧
    Event.connect ∈ (doMigration false [] 0).1.1 := by
  decide

/-- Claim C8: every operation body opens its single connection first and
releases it as its last action on every exit path, success or error. -/
theorem claim_C8 :
    ∀ (reply : StoreReply) (tables : List String) (truncReply : StoreReply)
      (hashFn : String → String) (db : SeedDB) (dirExists : Bool)
      (files : List Migration) (current : Nat),
      (createDatabase reply).1.head? = some Event.connect ∧
      (createDatabase reply).1.getLast? = some Event.connEnd ∧
      (dropDatabase reply).1.head? = some Event.connect ∧
      (dropDatabase reply).1.getLast? = some Event.connEnd ∧
      (seed tables truncReply hashFn db).2.1.head? = some Event.connect ∧
      (seed tables truncReply hashFn db).2.1.getLast? = some Event.connEnd ∧
      (doMigration dirExists files current).1.1.head? = some Event.connect ∧
      (doMigration dirExists files current).1.1.getLast? = some Event.connEnd := by
  intro reply tables truncReply hashFn db dirExists files current
  exact ⟨(createDatabase_trace reply).1, (createDatabase_trace reply).2,
    (dropDatabase_trace reply).1, (dropDatabase_trace reply).2,
    (seed_trace tables truncReply hashFn db).1, (seed_trace tables truncReply hashFn db).2,
    (doMigration_trace dirExists files current).1, (doMigration_trace dirExists files current).2⟩

/-- Claim C9 (amended): a gated operation is permitted exactly when the JS
numeric coercion of its flag equals 1 — which admits strings such as
"01", " 1" and "1.0" besides "1" itself, while missing, "0", "true" and
the empty string are refused. -/
theorem claim_C9 :
    (∀ v : Option String, gatePermits v = true ↔ jsNumber v = some 1) ∧
    gatePermits (some "1") = true ∧
    gatePermits (some "01") = true ∧
    gatePermits (some " 1") = true ∧
    gatePermits (some "1.0") = true ∧
    gatePermits none = false ∧
    gatePermits (some "0") = false ∧
    gatePermits (some "true") = false ∧
    gatePermits (some "") = false := by
  refine ⟨fun v => ?_, by decide, by decide, by decide, by decide,
    by decide, by decide, by decide, by decide⟩
  simp [gatePermits]

/-- Counterexample to claim C9 as stated: the flag value "01" is not the
exact string "1", yet the create script is permitted to proceed — it
opens a connection and issues the create statement. -/
theorem claim_C9_cex :
    gatePermits (some "01") = true ∧
    createDatabaseScript (some "01") StoreReply.ok
      = ([Event.connect, Event.createDbStmt, Event.logNotice, Event.logNotice,
          Event.connEnd], none) := by
  decide

/-- Claim C10: the seed script computes the password hash exactly once,
from the fixed plaintext, and every one of the three inserted users
stores that identical hash. -/
theorem claim_C10 :
    ∀ hashFn : String → String,
      scryptPlaintext = "Password123$" ∧
      ((seedUsers hashFn usersRoster emptySeedDB).1.users.map (fun u => u.password))
        = [hashFn scryptPlaintext, hashFn scryptPlaintext, hashFn scryptPlaintext] ∧
      (seedUsers hashFn usersRoster emptySeedDB).2.filter isHashEvent
        = [Event.hashCompute scryptPlaintext] := by
  intro hashFn
  exact ⟨rfl, rfl, rfl⟩

end Setup
